import Mathlib

/-!
Verification of the EventFinderCLI extraction core against its specification.

The development shallowly embeds the Rust sources:
  * `src/html_parser.rs`   — `SiteConfig`, `Event`, `parse_html`, `resolve_url`;
  * `src/data_processing.rs` — `ProcessedEvent`, `process_data`, `clean_text`,
    `parse_date`, `today_date`.

External crates are modelled at their interface, faithful to the fragment the
program exercises:
  * `str::trim` (Rust standard library) is modelled on Unicode White_Space;
  * `serde_json::from_str` is modelled by a fuel-based JSON reader producing a
    `Json` tree, with serde's last-wins object-key semantics;
  * `scraper` is modelled by an explicit node tree, a reader for the CSS
    fragment the program uses (compound selectors made of a tag name, classes
    and exact attribute tests, joined by descendant and child combinators),
    and pre-order selection; `Html::parse_document` is modelled by taking the
    already-parsed node forest as input;
  * the `url` crate is modelled for hierarchical `scheme://host/path` URLs
    (dot-segment normalisation and query/fragment splitting are out of the
    exercised fragment and are not modelled);
  * `chrono::Local::now` is modelled as an injected `LocalDate` argument, and
    the `%B%e` format by the full English month name followed by the
    space-padded day of month.

Rust panics (`unwrap` / `expect`) are modelled as `Except.error`.
-/

/-! ## Rust `str::trim` -/

/-- Characters with the Unicode White_Space property, as used by Rust's
`char::is_whitespace`, which underlies `str::trim`. -/
def rust_whitespace (c : Char) : Bool :=
  c.val = 9 || c.val = 10 || c.val = 11 || c.val = 12 || c.val = 13 ||
  c.val = 32 || c.val = 0x85 || c.val = 0xA0 || c.val = 0x1680 ||
  (0x2000 ≤ c.val && c.val ≤ 0x200A) ||
  c.val = 0x2028 || c.val = 0x2029 || c.val = 0x202F || c.val = 0x205F ||
  c.val = 0x3000

/-- Both-ends whitespace trimming on character lists. -/
def trim_chars (l : List Char) : List Char :=
  ((l.dropWhile rust_whitespace).reverse.dropWhile rust_whitespace).reverse

/-- Model of Rust `str::trim`. -/
def str_trim (s : String) : String :=
  ⟨trim_chars s.data⟩

/-! ## `src/data_processing.rs` -/

/-- `Event` from `src/html_parser.rs`: one raw extracted event record. -/
structure Event where
  name : String
  start_date : String
  end_date : String
  location : String
  url : String
deriving Repr, DecidableEq

/-- `ProcessedEvent` from `src/data_processing.rs`. -/
structure ProcessedEvent where
  name : String
  start_date : String
  end_date : String
  location : String
  url : String
deriving Repr, DecidableEq

/-- The injected clock capability: the current local date, in place of
`chrono::Local::now()` (month is 1-12, day is 1-31 on real clock readings). -/
structure LocalDate where
  month : Nat
  day : Nat
deriving Repr, DecidableEq

/-- Full English month name, as produced by chrono's `%B` for months 1-12. -/
def month_name : Nat → String
  | 1 => "January"
  | 2 => "February"
  | 3 => "March"
  | 4 => "April"
  | 5 => "May"
  | 6 => "June"
  | 7 => "July"
  | 8 => "August"
  | 9 => "September"
  | 10 => "October"
  | 11 => "November"
  | 12 => "December"
  | _ => ""

/-- Day of month as produced by chrono's `%e`: space-padded to two columns. -/
def format_day_e (day : Nat) : String :=
  if day < 10 then " " ++ toString day else toString day

/-- `today_date` from `src/data_processing.rs`: today's date in the `%B%e`
format (full month name immediately followed by the `%e` day rendering). -/
def today_date (d : LocalDate) : String :=
  month_name d.month ++ format_day_e d.day

/-- `clean_text` from `src/data_processing.rs`. -/
def clean_text (text : String) : String :=
  str_trim text

/-- `parse_date` from `src/data_processing.rs`. -/
def parse_date (d : LocalDate) (date_str : String) (is_start_date : Bool) : String :=
  if str_trim date_str = "" then
    if is_start_date then today_date d else "N/A"
  else
    str_trim date_str

/-- The per-event body of `process_data` from `src/data_processing.rs`. -/
def process_event (d : LocalDate) (event : Event) : ProcessedEvent :=
  { name := clean_text event.name
    start_date := parse_date d event.start_date true
    end_date := parse_date d event.end_date false
    location := clean_text event.location
    url := event.url }

/-- `process_data` from `src/data_processing.rs` (with the injected date). -/
def process_data (d : LocalDate) (events : List Event) : List ProcessedEvent :=
  events.map (process_event d)

/-- Reading a `ProcessedEvent` back as a raw `Event`, field for field. -/
def processed_to_raw (p : ProcessedEvent) : Event :=
  { name := p.name
    start_date := p.start_date
    end_date := p.end_date
    location := p.location
    url := p.url }

/-! ## Trimming lemmas -/

theorem dropWhile_self_idem {α : Type} (p : α → Bool) (l : List α) :
    (l.dropWhile p).dropWhile p = l.dropWhile p := by
  induction l with
  | nil => rfl
  | cons a t ih =>
    by_cases h : p a
    · simp [List.dropWhile_cons, h, ih]
    · simp [List.dropWhile_cons, h]

theorem dropWhile_append_back {α : Type} (p : α → Bool) (l : List α) :
    ∃ t, t ++ l.dropWhile p = l := by
  induction l with
  | nil => exact ⟨[], rfl⟩
  | cons a t ih =>
    by_cases h : p a
    · obtain ⟨u, hu⟩ := ih
      exact ⟨a :: u, by simp [List.dropWhile_cons, h, hu]⟩
    · exact ⟨[], by simp [List.dropWhile_cons, h]⟩

theorem dropWhile_length_le_self {α : Type} (p : α → Bool) (l : List α) :
    (l.dropWhile p).length ≤ l.length := by
  induction l with
  | nil => exact Nat.le_refl 0
  | cons a t ih =>
    by_cases h : p a
    · rw [List.dropWhile_cons]
      simp only [h, if_true]
      exact Nat.le_trans ih (Nat.le_succ _)
    · rw [List.dropWhile_cons]
      simp only [h, if_false]
      exact Nat.le_refl _

theorem dropWhile_eq_self_of_front {α : Type} (p : α → Bool) (l m : List α)
    (hl : (l ++ m).dropWhile p = l ++ m) : l.dropWhile p = l := by
  cases l with
  | nil => rfl
  | cons a t =>
    by_cases h : p a
    · exfalso
      have hlen : ((t ++ m).dropWhile p).length ≤ (t ++ m).length :=
        dropWhile_length_le_self p (t ++ m)
      rw [List.cons_append, List.dropWhile_cons] at hl
      simp only [h, if_true] at hl
      have hcl := congrArg List.length hl
      rw [List.length_cons] at hcl
      omega
    · simp [List.dropWhile_cons, h]

theorem trim_chars_idem (l : List Char) :
    trim_chars (trim_chars l) = trim_chars l := by
  unfold trim_chars
  set p := rust_whitespace with hp
  set m := l.dropWhile p with hm
  set tl := (m.reverse.dropWhile p).reverse with htl
  have hmfix : m.dropWhile p = m := by rw [hm]; exact dropWhile_self_idem p l
  -- tl is a front part of m
  have hfront : ∃ t, tl ++ t = m := by
    obtain ⟨u, hu⟩ := dropWhile_append_back p m.reverse
    refine ⟨u.reverse, ?_⟩
    have := congrArg List.reverse hu
    simpa [htl] using this
  have htlfix : tl.dropWhile p = tl := by
    obtain ⟨t, ht⟩ := hfront
    exact dropWhile_eq_self_of_front p tl t (by rw [ht]; exact hmfix)
  rw [htlfix]
  have hrev : tl.reverse = m.reverse.dropWhile p := by
    rw [htl, List.reverse_reverse]
  rw [hrev, dropWhile_self_idem]

theorem str_trim_idem (s : String) : str_trim (str_trim s) = str_trim s := by
  unfold str_trim
  exact congrArg String.mk (trim_chars_idem s.data)

theorem str_trim_ne_empty (s : String) (h : str_trim s ≠ "") :
    str_trim (str_trim s) ≠ "" := by
  rw [str_trim_idem]; exact h

/-- For every calendar-valid injected date, the defaulted start-date string is
untouched by trimming and is non-empty. -/
theorem today_date_trim_fixed :
    ∀ m < 13, ∀ day < 32, 1 ≤ m → 1 ≤ day →
      str_trim (today_date ⟨m, day⟩) = today_date ⟨m, day⟩ ∧
      today_date ⟨m, day⟩ ≠ "" := by
  decide

/-! ## serde_json model -/

/-- Generic JSON value, modelling `serde_json::Value`. Numbers keep their
source lexeme; the program only ever reads string-typed fields, so the
numeric interpretation is never observed. -/
inductive Json where
  | null : Json
  | bool (b : Bool) : Json
  | num (lexeme : String) : Json
  | str (s : String) : Json
  | arr (elems : List Json) : Json
  | obj (fields : List (String × Json)) : Json

/-- Lookup in an object's field list. serde objects are maps; the reader
below never produces duplicate keys, so first match is the map lookup. -/
def assoc_get (fields : List (String × Json)) (key : String) : Option Json :=
  match fields with
  | [] => none
  | (k, v) :: rest => if k = key then some v else assoc_get rest key

/-- serde_json string indexing on a `Value`: the field of an object, and
`Null` on a missing field or a non-object receiver. -/
def Json.index (v : Json) (key : String) : Json :=
  match v with
  | .obj fields => (assoc_get fields key).getD .null
  | _ => .null

/-- serde_json `Value::as_str`: `some` exactly on JSON strings. -/
def Json.as_str : Json → Option String
  | .str s => some s
  | _ => none

/-- JSON insignificant whitespace (RFC 8259). -/
def json_ws (c : Char) : Bool :=
  c = ' ' || c = '\t' || c = '\n' || c = '\r'

def skip_json_ws (l : List Char) : List Char :=
  l.dropWhile json_ws

def is_json_digit (c : Char) : Bool :=
  48 ≤ c.toNat && c.toNat ≤ 57

/-- Numeric value of one hexadecimal digit, by code point ranges. -/
def hex_val (c : Char) : Option Nat :=
  let n := c.toNat
  if 48 ≤ n && n ≤ 57 then some (n - 48)
  else if 97 ≤ n && n ≤ 102 then some (n - 87)
  else if 65 ≤ n && n ≤ 70 then some (n - 55)
  else none

/-- Combined value of four hexadecimal digits, high digit first. -/
def hex4_val (a b c d : Char) : Option Nat :=
  match hex_val a, hex_val b, hex_val c, hex_val d with
  | some x, some y, some z, some w => some (4096 * x + 256 * y + 16 * z + w)
  | _, _, _, _ => none

/-- Replacement character of one of the short JSON escapes, if valid. -/
def short_escape (c : Char) : Option Char :=
  if c = '"' || c = '\\' || c = '/' then some c
  else if c = 'n' then some (Char.ofNat 10)
  else if c = 't' then some (Char.ofNat 9)
  else if c = 'r' then some (Char.ofNat 13)
  else if c = 'b' then some (Char.ofNat 8)
  else if c = 'f' then some (Char.ofNat 12)
  else none

/-- Strip a literal keyword from the front of the input. -/
def strip_kw (kw : String) (l : List Char) : Option (List Char) :=
  if l.take kw.data.length = kw.data then some (l.drop kw.data.length)
  else none

/-- Map-insert for object members: a repeated key replaces the earlier value,
as in serde_json's default object representation. -/
def obj_insert (fields : List (String × Json)) (key : String) (v : Json) :
    List (String × Json) :=
  (fields.filter (fun p => p.1 != key)) ++ [(key, v)]

/-- Optional fraction part of a JSON number. -/
def json_read_frac (r : List Char) : Option (List Char × List Char) :=
  match r with
  | '.' :: r1 =>
    let ds := r1.takeWhile is_json_digit
    if ds = [] then none
    else some ('.' :: ds, r1.dropWhile is_json_digit)
  | _ => some ([], r)

/-- Optional exponent part of a JSON number. -/
def json_read_exp (r : List Char) : Option (List Char × List Char) :=
  match r with
  | c :: r1 =>
    if c = 'e' || c = 'E' then
      let (sgn, r2) :=
        match r1 with
        | '+' :: r2 => (['+'], r2)
        | '-' :: r2 => (['-'], r2)
        | _ => (([] : List Char), r1)
      let ds := r2.takeWhile is_json_digit
      if ds = [] then none
      else some (c :: (sgn ++ ds), r2.dropWhile is_json_digit)
    else some ([], r)
  | [] => some ([], r)

/-- JSON number lexeme: optional minus, integer part without a redundant
leading zero, optional fraction and exponent. -/
def json_read_number (l : List Char) : Option (String × List Char) :=
  let (sign, r0) :=
    match l with
    | '-' :: r => (['-'], r)
    | _ => (([] : List Char), l)
  match r0 with
  | '0' :: r1 =>
    match json_read_frac r1 with
    | none => none
    | some (f, r2) =>
      match json_read_exp r2 with
      | none => none
      | some (e, r3) => some (⟨sign ++ '0' :: (f ++ e)⟩, r3)
  | c :: _ =>
    if is_json_digit c then
      let ds := r0.takeWhile is_json_digit
      match json_read_frac (r0.dropWhile is_json_digit) with
      | none => none
      | some (f, r2) =>
        match json_read_exp r2 with
        | none => none
        | some (e, r3) => some (⟨sign ++ ds ++ f ++ e⟩, r3)
    else none
  | [] => none

/-- JSON string body after the opening quote, with the standard escapes. -/
def json_read_string (fuel : Nat) (l : List Char) (acc : List Char) :
    Option (String × List Char) :=
  match fuel with
  | 0 => none
  | Nat.succ fuel =>
    match l with
    | [] => none
    | c0 :: rest =>
      if c0 = '"' then some (⟨acc.reverse⟩, rest)
      else if c0 = '\\' then
        match rest with
        | [] => none
        | e :: r =>
          if e = 'u' then
            match r with
            | a :: b :: c :: d :: r2 =>
              match hex4_val a b c d with
              | some n => json_read_string fuel r2 (Char.ofNat n :: acc)
              | none => none
            | _ => none
          else
            match short_escape e with
            | some ch => json_read_string fuel r (ch :: acc)
            | none => none
      else if c0.toNat < 32 then none
      else json_read_string fuel rest (c0 :: acc)

mutual

/-- One JSON value, fuel-bounded. -/
def json_read_value (fuel : Nat) (l : List Char) : Option (Json × List Char) :=
  match fuel with
  | 0 => none
  | Nat.succ fuel =>
    let inp := skip_json_ws l
    match strip_kw "null" inp with
    | some rest => some (.null, rest)
    | none =>
    match strip_kw "true" inp with
    | some rest => some (.bool true, rest)
    | none =>
    match strip_kw "false" inp with
    | some rest => some (.bool false, rest)
    | none =>
    match inp with
    | '"' :: rest =>
      match json_read_string (rest.length + 1) rest [] with
      | some (s, r) => some (.str s, r)
      | none => none
    | '[' :: rest =>
      match skip_json_ws rest with
      | ']' :: r2 => some (.arr [], r2)
      | _ => json_read_elems fuel rest []
    | '\x7b' :: rest =>
      match skip_json_ws rest with
      | '\x7d' :: r2 => some (.obj [], r2)
      | _ => json_read_members fuel rest []
    | rest =>
      match json_read_number rest with
      | some (lex, r) => some (.num lex, r)
      | none => none

/-- Comma-separated array elements up to the closing bracket. -/
def json_read_elems (fuel : Nat) (l : List Char) (acc : List Json) :
    Option (Json × List Char) :=
  match fuel with
  | 0 => none
  | Nat.succ fuel =>
    match json_read_value fuel l with
    | none => none
    | some (v, r) =>
      match skip_json_ws r with
      | ',' :: r2 => json_read_elems fuel r2 (acc ++ [v])
      | ']' :: r2 => some (.arr (acc ++ [v]), r2)
      | _ => none

/-- Comma-separated object members up to the closing brace. -/
def json_read_members (fuel : Nat) (l : List Char)
    (acc : List (String × Json)) : Option (Json × List Char) :=
  match fuel with
  | 0 => none
  | Nat.succ fuel =>
    match skip_json_ws l with
    | '"' :: r =>
      match json_read_string (r.length + 1) r [] with
      | none => none
      | some (k, r2) =>
        match skip_json_ws r2 with
        | ':' :: r3 =>
          match json_read_value fuel r3 with
          | none => none
          | some (v, r4) =>
            match skip_json_ws r4 with
            | ',' :: r5 => json_read_members fuel r5 (obj_insert acc k v)
            | '\x7d' :: r5 => some (.obj (obj_insert acc k v), r5)
            | _ => none
        | _ => none
    | _ => none

end

/-- Model of `serde_json::from_str::<Value>`: one JSON document followed by
nothing but whitespace. -/
def serde_from_str (s : String) : Option Json :=
  match json_read_value (2 * s.length + 2) s.data with
  | some (v, rest) => if skip_json_ws rest = [] then some v else none
  | none => none

/-- The per-object field mapping of the structured-data branch of
`parse_html` (`src/html_parser.rs` lines 54-67). -/
def event_from_json (event_json : Json) : Event :=
  { name := ((event_json.index "name").as_str).getD ""
    start_date := ((event_json.index "startDate").as_str).getD ""
    end_date := ((event_json.index "endDate").as_str).getD ""
    location := (((event_json.index "location").index "name").as_str).getD ""
    url := ((event_json.index "url").as_str).getD "" }

/-- The array-or-single-object dispatch of the structured-data branch of
`parse_html` (the `as_array` match, lines 48-51). -/
def events_from_json (json : Json) : List Event :=
  match json with
  | .arr elems => elems.map event_from_json
  | _ => [event_from_json json]

/-! ## scraper model: node tree, CSS selector fragment, selection -/

/-- A parsed HTML node. `Html::parse_document` itself is the scraper
library; the embedding takes the parsed forest as input. -/
inductive HtmlNode where
  | element (tag : String) (attrs : List (String × String)) (children : List HtmlNode) : HtmlNode
  | text (content : String) : HtmlNode

/-- An element reference: the element together with its ancestor chain
(nearest ancestor first), as needed for combinator matching. -/
structure Elem where
  ancestors : List (String × List (String × String))
  tag : String
  attrs : List (String × String)
  children : List HtmlNode

mutual

/-- Elements of one node in pre-order, with ancestor chains. -/
def elems_of_node (anc : List (String × List (String × String))) :
    HtmlNode → List Elem
  | .text _ => []
  | .element tag attrs children =>
    { ancestors := anc, tag := tag, attrs := attrs, children := children } ::
      elems_of_forest ((tag, attrs) :: anc) children

/-- Elements of a forest in pre-order (document order). -/
def elems_of_forest (anc : List (String × List (String × String))) :
    List HtmlNode → List Elem
  | [] => []
  | n :: rest => elems_of_node anc n ++ elems_of_forest anc rest

end

/-- Attribute rendering used by the serialisation. -/
def attrs_html (attrs : List (String × String)) : String :=
  attrs.foldl (fun acc kv => acc ++ " " ++ kv.1 ++ "=\"" ++ kv.2 ++ "\"") ""

mutual

/-- Serialisation of a node, for `inner_html` (scraper's entity escaping of
text nodes is not modelled; the only serialised content the program feeds
onward is raw `script` text, which scraper also leaves unescaped). -/
def html_of_node : HtmlNode → String
  | .text s => s
  | .element tag attrs children =>
    "<" ++ tag ++ attrs_html attrs ++ ">" ++ html_of_forest children ++
      "</" ++ tag ++ ">"

/-- Serialisation of a forest of nodes. -/
def html_of_forest : List HtmlNode → String
  | [] => ""
  | n :: rest => html_of_node n ++ html_of_forest rest

end

/-- scraper `ElementRef::inner_html`. -/
def inner_html (e : Elem) : String :=
  html_of_forest e.children

/-- First attribute with the given name, as scraper's `attr`. -/
def attr_get (attrs : List (String × String)) (key : String) : Option String :=
  match attrs with
  | [] => none
  | (k, v) :: rest => if k = key then some v else attr_get rest key

/-- CSS whitespace. -/
def css_ws (c : Char) : Bool :=
  c = ' ' || c = '\t' || c = '\n' || c = '\r' || c = '\x0C'

/-- Splitting a character list at whitespace characters. -/
def split_ws_aux (l : List Char) (cur : List Char) (acc : List String) :
    List String :=
  match l with
  | [] => acc ++ [⟨cur.reverse⟩]
  | c :: rest =>
    if css_ws c then split_ws_aux rest [] (acc ++ [⟨cur.reverse⟩])
    else split_ws_aux rest (c :: cur) acc

/-- The whitespace-separated class list of an element. -/
def class_list (attrs : List (String × String)) : List String :=
  (split_ws_aux ((attr_get attrs "class").getD "").data [] []).filter
    (fun s => !s.isEmpty)

/-- One compound selector: optional tag name, classes, exact attribute
tests. This is the CSS fragment the program's configurations use. -/
structure CompoundSel where
  tag : Option String
  classes : List String
  attrs : List (String × String)
deriving Repr, DecidableEq

/-- Combinators between compound selectors. -/
inductive Comb where
  | descendant : Comb
  | child : Comb
deriving Repr, DecidableEq

/-- A parsed selector: a first compound and a combinator chain. -/
structure Selector where
  first : CompoundSel
  chain : List (Comb × CompoundSel)
deriving Repr, DecidableEq

def is_ident_char (c : Char) : Bool :=
  c.isAlpha || c.isDigit || c = '-' || c = '_'

def is_ident_start (c : Char) : Bool :=
  c.isAlpha || c = '-' || c = '_'

/-- One CSS identifier. -/
def read_ident (l : List Char) : Option (String × List Char) :=
  match l with
  | c :: _ =>
    if is_ident_start c then
      some (⟨l.takeWhile is_ident_char⟩, l.dropWhile is_ident_char)
    else none
  | [] => none

/-- Class and attribute items of a compound selector. -/
def read_items (fuel : Nat) (l : List Char) (acc : CompoundSel) :
    Option (CompoundSel × List Char) :=
  match fuel with
  | 0 => none
  | Nat.succ fuel =>
    match l with
    | '.' :: r =>
      match read_ident r with
      | some (cls, r2) =>
        read_items fuel r2 { acc with classes := acc.classes ++ [cls] }
      | none => none
    | '[' :: r =>
      match read_ident r with
      | some (key, r2) =>
        match r2 with
        | '=' :: q :: r3 =>
          if q = '\x27' || q = '"' then
            let v : String := ⟨r3.takeWhile (fun c => c != q)⟩
            match r3.dropWhile (fun c => c != q) with
            | _ :: ']' :: r4 =>
              read_items fuel r4 { acc with attrs := acc.attrs ++ [(key, v)] }
            | _ => none
          else none
        | _ => none
      | none => none
    | _ => some (acc, l)

/-- One compound selector; at least a tag or one item is required. -/
def read_compound (fuel : Nat) (l : List Char) :
    Option (CompoundSel × List Char) :=
  let (tag, r) :=
    match read_ident l with
    | some (t, r) => (some t, r)
    | none => ((none : Option String), l)
  match read_items fuel r { tag := tag, classes := [], attrs := [] } with
  | some (c, r2) =>
    if c.tag.isSome || !c.classes.isEmpty || !c.attrs.isEmpty then
      some (c, r2)
    else none
  | none => none

/-- The combinator chain after the first compound. -/
def read_chain (fuel : Nat) (l : List Char) (first : CompoundSel)
    (acc : List (Comb × CompoundSel)) : Option Selector :=
  match fuel with
  | 0 => none
  | Nat.succ fuel =>
    let ws := l.takeWhile css_ws
    let r := l.dropWhile css_ws
    match r with
    | [] => some { first := first, chain := acc }
    | '>' :: r2 =>
      let r3 := r2.dropWhile css_ws
      match read_compound fuel r3 with
      | some (c, r4) => read_chain fuel r4 first (acc ++ [(Comb.child, c)])
      | none => none
    | _ =>
      if ws.isEmpty then none
      else
        match read_compound fuel r with
        | some (c, r2) => read_chain fuel r2 first (acc ++ [(Comb.descendant, c)])
        | none => none

/-- Model of scraper `Selector::parse` on the supported CSS fragment:
`none` is a syntactically invalid selector (the source calls `.unwrap()`
on this result, i.e. panics). -/
def selector_parse (s : String) : Option Selector :=
  match read_compound (s.length + 1) (s.data.dropWhile css_ws) with
  | some (c, r) => read_chain (s.length + 1) r c []
  | none => none

/-- Does a compound selector match an element's tag and attributes? -/
def matches_compound (c : CompoundSel) (tag : String)
    (attrs : List (String × String)) : Bool :=
  (match c.tag with
   | some t => t == tag
   | none => true) &&
  c.classes.all (fun cl => (class_list attrs).contains cl) &&
  c.attrs.all (fun kv => attr_get attrs kv.1 == some kv.2)

/-- The rightmost compound of a selector: the one the element itself must
match. -/
def target_compound (sel : Selector) : CompoundSel :=
  match sel.chain.getLast? with
  | some (_, c) => c
  | none => sel.first

/-- Constraint pairs to the left of the target, rightmost first: each entry
is the combinator together with the compound the next element up must
match. -/
def lefts_aux (prev : CompoundSel) :
    List (Comb × CompoundSel) → List (Comb × CompoundSel)
  | [] => []
  | (b, c) :: rest => (b, prev) :: lefts_aux c rest

def left_pairs (sel : Selector) : List (Comb × CompoundSel) :=
  (lefts_aux sel.first sel.chain).reverse

/-- Match the leftward constraint pairs against an ancestor chain. -/
def match_anc (pairs : List (Comb × CompoundSel))
    (anc : List (String × List (String × String))) : Bool :=
  match pairs with
  | [] => true
  | (Comb.child, c) :: rest =>
    match anc with
    | [] => false
    | a :: anc2 => matches_compound c a.1 a.2 && match_anc rest anc2
  | (Comb.descendant, c) :: rest =>
    anc.tails.any (fun t =>
      match t with
      | a :: anc2 => matches_compound c a.1 a.2 && match_anc rest anc2
      | [] => false)

/-- Does the selector match the element (with its ancestor chain)? -/
def matches_selector (sel : Selector) (e : Elem) : Bool :=
  matches_compound (target_compound sel) e.tag e.attrs &&
  match_anc (left_pairs sel) e.ancestors

/-- scraper `Html::select`: all matching elements in document order. -/
def select_all (document : List HtmlNode) (sel : Selector) : List Elem :=
  (elems_of_forest [] document).filter (matches_selector sel)

/-- scraper `ElementRef::select`: matching descendants of one element. -/
def select_in (e : Elem) (sel : Selector) : List Elem :=
  (elems_of_forest ((e.tag, e.attrs) :: e.ancestors) e.children).filter
    (matches_selector sel)

/-! ## `src/html_parser.rs`: `SiteConfig`, URL resolution, `parse_html` -/

/-- `SiteConfig` from `src/html_parser.rs`. The field named `url` holds the
link selector. -/
structure SiteConfig where
  event_selector : String
  name_selector : String
  start_date_selector : String
  end_date_selector : String
  location_selector : String
  url : String
deriving Repr, DecidableEq

def is_scheme_char (c : Char) : Bool :=
  c.isAlpha || c.isDigit || c = '+' || c = '-' || c = '.'

def is_host_char (c : Char) : Bool :=
  !(c = '/' || c = '?' || c = '#' || c = '\\' || c = '@' ||
    c = ' ' || c = '\t' || c = '\n' || c = '\r')

/-- A hierarchical absolute URL, modelling the `url` crate on the
`scheme://host/path` fragment the program exercises. -/
structure ParsedUrl where
  scheme : String
  host : String
  path : String
deriving Repr, DecidableEq

/-- Model of `Url::parse` on the hierarchical fragment: requires an
alphabetic-initial scheme, `://`, a non-empty host, and a path; an empty
path normalises to `/` as in the WHATWG model. -/
def url_parse (s : String) : Option ParsedUrl :=
  match s.data with
  | c :: _ =>
    if c.isAlpha then
      let scheme := s.data.takeWhile is_scheme_char
      match s.data.dropWhile is_scheme_char with
      | ':' :: '/' :: '/' :: r =>
        let host := r.takeWhile is_host_char
        let rest := r.dropWhile is_host_char
        if host.isEmpty then none
        else
          match rest with
          | [] => some { scheme := ⟨scheme⟩, host := ⟨host⟩, path := "/" }
          | '/' :: _ => some { scheme := ⟨scheme⟩, host := ⟨host⟩, path := ⟨rest⟩ }
          | _ => none
      | _ => none
    else none
  | [] => none

def url_to_string (u : ParsedUrl) : String :=
  u.scheme ++ "://" ++ u.host ++ u.path

/-- RFC 3986 path merge: the base path up to and including its last slash,
followed by the relative reference. -/
def merge_path (base_path : String) (rel : String) : String :=
  ⟨(base_path.data.reverse.dropWhile (fun c => c != '/')).reverse⟩ ++ rel

/-- Model of `Url::join` for references the program can produce: empty,
absolute, scheme-relative, root-relative and relative-path references. -/
def url_join (base : ParsedUrl) (rel : String) : ParsedUrl :=
  if rel = "" then base
  else
    match url_parse rel with
    | some u => u
    | none =>
      match rel.data with
      | '/' :: '/' :: r =>
        let host := r.takeWhile is_host_char
        let rest := r.dropWhile is_host_char
        { scheme := base.scheme, host := ⟨host⟩,
          path := if rest.isEmpty then "/" else ⟨rest⟩ }
      | '/' :: _ => { base with path := rel }
      | _ => { base with path := merge_path base.path rel }

/-- `resolve_url` from `src/html_parser.rs`. The `expect` on the base-URL
parse is the panic modelled as `Except.error`. -/
def resolve_url (base relative : String) : Except String String :=
  match url_parse base with
  | none => Except.error "Failed to parse base URL"
  | some b => Except.ok (url_to_string (url_join b relative))

/-- The reserved marker selector that switches `parse_html` into
structured-data mode. -/
def ld_json_marker : String := "script[type=\x27application/ld+json\x27]"

/-- Fail-fast monadic map, mirroring the extraction loop: one output per
input element, aborted by the first error (panic). -/
def map_except {α β : Type} (f : α → Except String β) :
    List α → Except String (List β)
  | [] => Except.ok []
  | a :: rest =>
    match f a with
    | Except.error e => Except.error e
    | Except.ok b =>
      match map_except f rest with
      | Except.error e => Except.error e
      | Except.ok bs => Except.ok (b :: bs)

/-- The loop body of the DOM branch of `parse_html` (lines 76-113): field
selectors are parsed (with panics on invalid syntax) and applied inside
the per-block iteration, then the link is resolved against the base URL. -/
def dom_extract_event (config : SiteConfig) (base_url : String)
    (event_element : Elem) : Except String Event :=
  match selector_parse config.name_selector with
  | none => Except.error "invalid name selector"
  | some name_sel =>
    let name := ((select_in event_element name_sel).head?.map inner_html).getD ""
    match selector_parse config.start_date_selector with
    | none => Except.error "invalid start date selector"
    | some start_sel =>
      let start_date :=
        ((select_in event_element start_sel).head?.map inner_html).getD ""
      match selector_parse config.end_date_selector with
      | none => Except.error "invalid end date selector"
      | some end_sel =>
        let end_date :=
          ((select_in event_element end_sel).head?.map inner_html).getD ""
        match selector_parse config.location_selector with
        | none => Except.error "invalid location selector"
        | some location_sel =>
          let location :=
            ((select_in event_element location_sel).head?.map inner_html).getD ""
          match selector_parse config.url with
          | none => Except.error "invalid url selector"
          | some url_sel =>
            let relative_url :=
              ((select_in event_element url_sel).head?.bind
                (fun e => attr_get e.attrs "href")).getD ""
            match resolve_url base_url relative_url with
            | Except.error msg => Except.error msg
            | Except.ok url =>
              Except.ok { name := name, start_date := start_date,
                          end_date := end_date, location := location,
                          url := url }

/-- The DOM branch of `parse_html` (lines 73-114). -/
def parse_dom (document : List HtmlNode) (config : SiteConfig)
    (base_url : String) : Except String (List Event) :=
  match selector_parse config.event_selector with
  | none => Except.error "invalid event selector"
  | some event_selector =>
    map_except (dom_extract_event config base_url)
      (select_all document event_selector)

/-- The structured-data branch of `parse_html` (lines 42-72): first matching
script block, JSON parse with failure swallowed, fixed field mapping. -/
def parse_structured (document : List HtmlNode) (config : SiteConfig) :
    Except String (List Event) :=
  match selector_parse config.event_selector with
  | none => Except.error "invalid event selector"
  | some sel =>
    match (select_all document sel).head? with
    | none => Except.ok []
    | some script_content =>
      match serde_from_str (inner_html script_content) with
      | some json => Except.ok (events_from_json json)
      | none => Except.ok []

/-- `parse_html` from `src/html_parser.rs`: binary dispatch on the marker
string. -/
def parse_html (document : List HtmlNode) (config : SiteConfig)
    (base_url : String) : Except String (List Event) :=
  if config.event_selector = ld_json_marker then
    parse_structured document config
  else
    parse_dom document config base_url

/-! ## Shared concrete samples and helper lemmas -/

/-- The parsed form of the structured-data marker selector. -/
def ld_sel : Selector :=
  { first := { tag := some "script", classes := [],
               attrs := [("type", "application/ld+json")] }
    chain := [] }

theorem ld_marker_parse : selector_parse ld_json_marker = some ld_sel := by
  rfl

/-- The parsed form of the `.event` container selector. -/
def event_class_sel : Selector :=
  { first := { tag := none, classes := ["event"], attrs := [] }, chain := [] }

theorem event_class_parse : selector_parse ".event" = some event_class_sel := by
  rfl

/-- A `script type="application/ld+json"` element holding the given text. -/
def sd_script (content : String) : HtmlNode :=
  .element "script" [("type", "application/ld+json")] [.text content]

/-- A DOM-mode configuration (the one of the module's own unit test). -/
def sample_config : SiteConfig :=
  { event_selector := ".event"
    name_selector := ".name"
    start_date_selector := ".start-date"
    end_date_selector := ".end-date"
    location_selector := ".location"
    url := ".url" }

/-- A structured-data-mode configuration. -/
def sd_config : SiteConfig :=
  { sample_config with event_selector := ld_json_marker }

theorem map_except_cons_error {α β : Type} (f : α → Except String β) (a : α)
    (l : List α) (msg : String) (h : f a = Except.error msg) :
    map_except f (a :: l) = Except.error msg := by
  simp [map_except, h]

/-! ## Claim theorems: normalization -/

/-- Claim C3: for every raw event, an all-whitespace start date is replaced
by today's date in the `%B%e` rendering (full month name immediately
followed by the day-of-month rendering, no separator in the format), a
non-blank start date is kept exactly as its trim, a blank end date becomes
the literal `N/A`, and a non-blank end date is kept exactly as its trim. -/
theorem parse_date_normalization (d : LocalDate) (r : Event) :
    (str_trim r.start_date = "" →
      (process_event d r).start_date = today_date d ∧
      today_date d = month_name d.month ++ format_day_e d.day)
  ∧ (str_trim r.start_date ≠ "" →
      (process_event d r).start_date = str_trim r.start_date)
  ∧ (str_trim r.end_date = "" → (process_event d r).end_date = "N/A")
  ∧ (str_trim r.end_date ≠ "" →
      (process_event d r).end_date = str_trim r.end_date) := by
  refine ⟨fun h => ⟨?_, rfl⟩, fun h => ?_, fun h => ?_, fun h => ?_⟩ <;>
    simp [process_event, parse_date, h]

/-- Evaluation of the C3 theorem at a concrete event and date. -/
theorem parse_date_normalization_witness :
    (process_event ⟨1, 5⟩
        { name := "n", start_date := "  ", end_date := " May 3 ",
          location := "l", url := "u" }).start_date = today_date ⟨1, 5⟩ ∧
    (process_event ⟨1, 5⟩
        { name := "n", start_date := "  ", end_date := " May 3 ",
          location := "l", url := "u" }).end_date = str_trim " May 3 " :=
  ⟨((parse_date_normalization ⟨1, 5⟩ _).1 (by decide)).1,
   (parse_date_normalization ⟨1, 5⟩ _).2.2.2 (by decide)⟩

/-- Claim C4: normalization is total, order-preserving and one-to-one — the
output has the same length, the i-th output is derived from the i-th input,
and per event the name and location are exactly the trimmed inputs. -/
theorem process_data_shape (d : LocalDate) (events : List Event) :
    (process_data d events).length = events.length
  ∧ (∀ i : Nat, (process_data d events)[i]? = (events[i]?).map (process_event d))
  ∧ (∀ r : Event,
      (process_event d r).name = str_trim r.name ∧
      (process_event d r).location = str_trim r.location) := by
  refine ⟨by simp [process_data], fun i => ?_, fun r => ⟨rfl, rfl⟩⟩
  simp [process_data]

/-- Claim C8: normalization passes `url` through byte-for-byte unchanged. -/
theorem process_url_passthrough (d : LocalDate) (events : List Event) :
    (process_data d events).map ProcessedEvent.url = events.map Event.url
  ∧ ∀ r : Event, (process_event d r).url = r.url := by
  refine ⟨?_, fun r => rfl⟩
  simp only [process_data, List.map_map]
  exact List.map_congr_left (fun a _ => rfl)

/-- Claim C10: per-event normalization is idempotent: re-normalizing a
normalized record (any second reading of the clock) leaves it unchanged. -/
theorem process_event_idempotent (d d2 : LocalDate) (r : Event)
    (hm1 : 1 ≤ d.month) (hm2 : d.month ≤ 12)
    (hd1 : 1 ≤ d.day) (hd2 : d.day ≤ 31) :
    process_event d2 (processed_to_raw (process_event d r)) = process_event d r := by
  obtain ⟨htd, hne⟩ :=
    today_date_trim_fixed d.month (by omega) d.day (by omega) hm1 hd1
  have htd2 : str_trim (today_date d) = today_date d := htd
  have hne2 : today_date d ≠ "" := hne
  have hstart : parse_date d2 (parse_date d r.start_date true) true =
      parse_date d r.start_date true := by
    by_cases h : str_trim r.start_date = ""
    · have h1 : parse_date d r.start_date true = today_date d := by
        simp [parse_date, h]
      rw [h1, parse_date, htd2, if_neg hne2]
    · have h1 : parse_date d r.start_date true = str_trim r.start_date := by
        simp [parse_date, h]
      rw [h1, parse_date, str_trim_idem, if_neg h]
  have hend : parse_date d2 (parse_date d r.end_date false) false =
      parse_date d r.end_date false := by
    by_cases h : str_trim r.end_date = ""
    · have h1 : parse_date d r.end_date false = "N/A" := by
        simp [parse_date, h]
      have hna : str_trim "N/A" = "N/A" := by decide
      have hnane : ("N/A" : String) ≠ "" := by decide
      rw [h1, parse_date, hna, if_neg hnane]
    · have h1 : parse_date d r.end_date false = str_trim r.end_date := by
        simp [parse_date, h]
      rw [h1, parse_date, str_trim_idem, if_neg h]
  show ProcessedEvent.mk _ _ _ _ _ = ProcessedEvent.mk _ _ _ _ _
  rw [ProcessedEvent.mk.injEq]
  exact ⟨str_trim_idem r.name, hstart, hend, str_trim_idem r.location, rfl⟩

/-- Evaluation of the C10 theorem at a concrete event and two dates. -/
theorem process_event_idempotent_witness :
    process_event ⟨2, 20⟩
        (processed_to_raw (process_event ⟨1, 5⟩
          { name := " A ", start_date := "", end_date := " ",
            location := "B", url := " u " })) =
      process_event ⟨1, 5⟩
        { name := " A ", start_date := "", end_date := " ",
          location := "B", url := " u " } :=
  process_event_idempotent ⟨1, 5⟩ ⟨2, 20⟩ _
    (by decide) (by decide) (by decide) (by decide)

/-! ## Claim theorems: structured-data extraction -/

theorem obj_field_str (fields : List (String × Json)) (key : String) :
    (((Json.obj fields).index key).as_str).getD "" =
      (match assoc_get fields key with
       | some (Json.str s) => s
       | _ => "") := by
  cases h : assoc_get fields key with
  | none => simp [Json.index, h, Json.as_str]
  | some v => cases v <;> simp [Json.index, h, Json.as_str]

/-- The successfully parsed structured-data payload of a document, when the
first marker-selected script holds well-formed JSON. -/
def structured_payload (document : List HtmlNode) : Option Json :=
  match selector_parse ld_json_marker with
  | some sel => ((select_all document sel).head?.map inner_html).bind serde_from_str
  | none => none

/-- Claim C1: in structured-data mode a payload parsing to a single object
yields exactly one event, an array of N objects yields N events in array
order, and per object the fields are read `name`, `startDate`, `endDate`,
`location.name` and `url` as strings, any missing or wrong-typed field
defaulting to the empty string. -/
theorem structured_payload_extraction :
    (∀ fields, events_from_json (Json.obj fields) = [event_from_json (Json.obj fields)])
  ∧ (∀ elems, events_from_json (Json.arr elems) = elems.map event_from_json)
  ∧ (∀ fields,
      (event_from_json (Json.obj fields)).name =
        (match assoc_get fields "name" with
         | some (Json.str s) => s
         | _ => "") ∧
      (event_from_json (Json.obj fields)).start_date =
        (match assoc_get fields "startDate" with
         | some (Json.str s) => s
         | _ => "") ∧
      (event_from_json (Json.obj fields)).end_date =
        (match assoc_get fields "endDate" with
         | some (Json.str s) => s
         | _ => "") ∧
      (event_from_json (Json.obj fields)).location =
        (match assoc_get fields "location" with
         | some (Json.obj lf) =>
           (match assoc_get lf "name" with
            | some (Json.str s) => s
            | _ => "")
         | _ => "") ∧
      (event_from_json (Json.obj fields)).url =
        (match assoc_get fields "url" with
         | some (Json.str s) => s
         | _ => ""))
  ∧ (∀ document config base_url json,
      config.event_selector = ld_json_marker →
      structured_payload document = some json →
      parse_html document config base_url = Except.ok (events_from_json json)) := by
  refine ⟨fun fields => rfl, fun elems => rfl, fun fields => ?_, ?_⟩
  · refine ⟨obj_field_str fields "name", obj_field_str fields "startDate",
      obj_field_str fields "endDate", ?_, obj_field_str fields "url"⟩
    show ((((Json.obj fields).index "location").index "name").as_str).getD "" = _
    cases h : assoc_get fields "location" with
    | none => simp [Json.index, h, Json.as_str]
    | some v =>
      cases v with
      | obj lf =>
        simp only [Json.index, h, Option.getD_some]
        exact obj_field_str lf "name"
      | null => simp [Json.index, h, Json.as_str]
      | bool b => simp [Json.index, h, Json.as_str]
      | num m => simp [Json.index, h, Json.as_str]
      | str s => simp [Json.index, h, Json.as_str]
      | arr a => simp [Json.index, h, Json.as_str]
  · intro document config base_url json h1 h2
    simp only [structured_payload, ld_marker_parse] at h2
    unfold parse_html
    rw [if_pos h1]
    unfold parse_structured
    rw [h1]
    simp only [ld_marker_parse]
    cases hh : (select_all document ld_sel).head? with
    | none =>
      rw [hh] at h2
      simp at h2
    | some e =>
      rw [hh] at h2
      simp only [Option.map_some', Option.some_bind] at h2
      simp only [h2]

/-- Evaluation of the C1 theorem: a script with a single JSON object yields
exactly the one mapped event through `parse_html`. -/
theorem structured_payload_extraction_witness :
    parse_html [sd_script "\x7b\"name\": \"Concert\"\x7d"] sd_config
        "http://example.com" =
      Except.ok (events_from_json (Json.obj [("name", Json.str "Concert")])) :=
  structured_payload_extraction.2.2.2
    [sd_script "\x7b\"name\": \"Concert\"\x7d"] sd_config "http://example.com"
    (Json.obj [("name", Json.str "Concert")]) rfl (by rfl)

/-! ## Claim theorems: dispatch, degradation, failure modes -/

/-- Claim C2: mode selection in `parse_html` is a binary dispatch on
equality of the container selector with the reserved marker string; no
call falls back to the other mode, and in structured mode the result does
not depend on any other configuration field. -/
theorem parse_html_mode_dispatch :
    (∀ document config base_url,
       config.event_selector = ld_json_marker →
       parse_html document config base_url = parse_structured document config)
  ∧ (∀ document config base_url,
       config.event_selector ≠ ld_json_marker →
       parse_html document config base_url = parse_dom document config base_url)
  ∧ (∀ document config config2 base_url base_url2,
       config.event_selector = ld_json_marker →
       config2.event_selector = ld_json_marker →
       parse_html document config base_url =
         parse_html document config2 base_url2) := by
  refine ⟨fun document config base_url h => ?_,
    fun document config base_url h => ?_,
    fun document config config2 base_url base_url2 h1 h2 => ?_⟩
  · unfold parse_html; rw [if_pos h]
  · unfold parse_html; rw [if_neg h]
  · unfold parse_html
    rw [if_pos h1, if_pos h2]
    unfold parse_structured
    rw [h1, h2]

/-- Evaluation of the C2 theorem at concrete configurations of both modes. -/
theorem parse_html_mode_dispatch_witness :
    parse_html [] sd_config "http://a" = parse_structured [] sd_config ∧
    parse_html [] sample_config "http://a" = parse_dom [] sample_config "http://a" :=
  ⟨parse_html_mode_dispatch.1 [] sd_config "http://a" rfl,
   parse_html_mode_dispatch.2.1 [] sample_config "http://a" (by decide)⟩

/-- Claim C9: in structured-data mode the extraction result is independent
of the base URL argument. -/
theorem structured_mode_base_url_independent
    (document : List HtmlNode) (config : SiteConfig) (b1 b2 : String)
    (h : config.event_selector = ld_json_marker) :
    parse_html document config b1 = parse_html document config b2 := by
  unfold parse_html
  rw [if_pos h, if_pos h]

/-- Evaluation of the C9 theorem at a concrete document and two different
base URLs. -/
theorem structured_mode_base_url_independent_witness :
    parse_html [sd_script "\x7b\"url\": \"/relative\"\x7d"] sd_config "http://a"
      = parse_html [sd_script "\x7b\"url\": \"/relative\"\x7d"] sd_config "http://b" :=
  structured_mode_base_url_independent
    [sd_script "\x7b\"url\": \"/relative\"\x7d"] sd_config "http://a" "http://b" rfl

/-- Claim C5: extraction degrades to an empty result instead of an error
when the DOM container selector matches nothing, when no structured-data
block is present, and when the structured-data payload is not valid JSON. -/
theorem extract_empty_degradation :
    (∀ document config base_url sel,
       config.event_selector ≠ ld_json_marker →
       selector_parse config.event_selector = some sel →
       select_all document sel = [] →
       parse_html document config base_url = Except.ok [])
  ∧ (∀ document config base_url,
       config.event_selector = ld_json_marker →
       select_all document ld_sel = [] →
       parse_html document config base_url = Except.ok [])
  ∧ (∀ document config base_url e rest,
       config.event_selector = ld_json_marker →
       select_all document ld_sel = e :: rest →
       serde_from_str (inner_html e) = none →
       parse_html document config base_url = Except.ok []) := by
  refine ⟨fun document config base_url sel h1 h2 h3 => ?_,
    fun document config base_url h1 h2 => ?_,
    fun document config base_url e rest h1 h2 h3 => ?_⟩
  · unfold parse_html
    rw [if_neg h1]
    unfold parse_dom
    rw [h2]
    simp only [h3]
    rfl
  · unfold parse_html
    rw [if_pos h1]
    unfold parse_structured
    rw [h1]
    simp only [ld_marker_parse, h2]
    rfl
  · unfold parse_html
    rw [if_pos h1]
    unfold parse_structured
    rw [h1]
    simp only [ld_marker_parse, h2, List.head?_cons, h3]

/-- Evaluation of the C5 theorem: a DOM page without matching containers
and a structured page whose script holds malformed JSON both yield an
empty result. -/
theorem extract_empty_degradation_witness :
    parse_html [] sample_config "http://example.com" = Except.ok [] ∧
    parse_html [sd_script "not json"] sd_config "http://example.com" =
      Except.ok [] :=
  ⟨extract_empty_degradation.1 [] sample_config "http://example.com"
      event_class_sel (by decide) event_class_parse rfl,
   extract_empty_degradation.2.2 [sd_script "not json"] sd_config
      "http://example.com"
      { ancestors := [], tag := "script",
        attrs := [("type", "application/ld+json")],
        children := [.text "not json"] }
      [] rfl rfl rfl⟩

/-- With at least one syntactically invalid field selector, the per-block
extraction body fails (panics) on every block it is applied to. -/
theorem dom_extract_event_invalid_field (config : SiteConfig)
    (base_url : String) (e : Elem)
    (h : selector_parse config.name_selector = none ∨
         selector_parse config.start_date_selector = none ∨
         selector_parse config.end_date_selector = none ∨
         selector_parse config.location_selector = none ∨
         selector_parse config.url = none) :
    ∃ msg, dom_extract_event config base_url e = Except.error msg := by
  unfold dom_extract_event
  cases hn : selector_parse config.name_selector with
  | none => exact ⟨"invalid name selector", rfl⟩
  | some name_sel =>
    cases hs : selector_parse config.start_date_selector with
    | none => exact ⟨"invalid start date selector", rfl⟩
    | some start_sel =>
      cases he : selector_parse config.end_date_selector with
      | none => exact ⟨"invalid end date selector", rfl⟩
      | some end_sel =>
        cases hl : selector_parse config.location_selector with
        | none => exact ⟨"invalid location selector", rfl⟩
        | some location_sel =>
          cases hu : selector_parse config.url with
          | none => exact ⟨"invalid url selector", rfl⟩
          | some url_sel =>
            exfalso
            rcases h with h | h | h | h | h
            · rw [hn] at h; exact Option.noConfusion h
            · rw [hs] at h; exact Option.noConfusion h
            · rw [he] at h; exact Option.noConfusion h
            · rw [hl] at h; exact Option.noConfusion h
            · rw [hu] at h; exact Option.noConfusion h

/-- Counterexample to claim C6 as stated: this configuration contains the
syntactically invalid field selector `[[`, yet on a page with no element
matching the (valid) container selector the call succeeds with an empty
result instead of failing. -/
theorem invalid_field_selector_swallowed :
    selector_parse "[[" = none ∧
    parse_html []
      { event_selector := ".event", name_selector := "[[",
        start_date_selector := ".s", end_date_selector := ".e",
        location_selector := ".l", url := ".u" }
      "http://example.com" = Except.ok [] :=
  ⟨rfl, rfl⟩

/-- Claim C6 as amended: an invalid container selector is fatal in DOM mode
on every page; an invalid field selector is fatal exactly on the pages
where the container selector is valid and matches at least one block
(field selectors are parsed inside the per-block loop); in structured-data
mode selectors beyond the container marker are never parsed and the call
never fails. -/
theorem invalid_selector_fatality :
    (∀ document config base_url,
       config.event_selector ≠ ld_json_marker →
       selector_parse config.event_selector = none →
       parse_html document config base_url =
         Except.error "invalid event selector")
  ∧ (∀ document config base_url sel e rest,
       config.event_selector ≠ ld_json_marker →
       selector_parse config.event_selector = some sel →
       select_all document sel = e :: rest →
       (selector_parse config.name_selector = none ∨
        selector_parse config.start_date_selector = none ∨
        selector_parse config.end_date_selector = none ∨
        selector_parse config.location_selector = none ∨
        selector_parse config.url = none) →
       ∃ msg, parse_html document config base_url = Except.error msg)
  ∧ (∀ document config base_url,
       config.event_selector = ld_json_marker →
       ∃ events, parse_html document config base_url = Except.ok events) := by
  refine ⟨fun document config base_url h1 h2 => ?_,
    fun document config base_url sel e rest h1 h2 h3 h4 => ?_,
    fun document config base_url h1 => ?_⟩
  · unfold parse_html
    rw [if_neg h1]
    unfold parse_dom
    rw [h2]
  · obtain ⟨msg, hmsg⟩ :=
      dom_extract_event_invalid_field config base_url e h4
    refine ⟨msg, ?_⟩
    unfold parse_html
    rw [if_neg h1]
    unfold parse_dom
    rw [h2]
    simp only [h3]
    exact map_except_cons_error _ e rest msg hmsg
  · unfold parse_html
    rw [if_pos h1]
    unfold parse_structured
    rw [h1]
    simp only [ld_marker_parse]
    cases hh : (select_all document ld_sel).head? with
    | none => exact ⟨[], rfl⟩
    | some e =>
      cases hj : serde_from_str (inner_html e) with
      | none => exact ⟨[], by simp [hj]⟩
      | some json => exact ⟨events_from_json json, by simp [hj]⟩

/-- Evaluation of the amended C6 theorem: an invalid container selector is
fatal even on an empty page, and an invalid name selector is fatal on a
page with one matching container block. -/
theorem invalid_selector_fatality_witness :
    (parse_html []
        { event_selector := "[[", name_selector := ".n",
          start_date_selector := ".s", end_date_selector := ".e",
          location_selector := ".l", url := ".u" }
        "http://example.com" = Except.error "invalid event selector") ∧
    (∃ msg, parse_html [HtmlNode.element "div" [("class", "event")] []]
        { event_selector := ".event", name_selector := "[[",
          start_date_selector := ".s", end_date_selector := ".e",
          location_selector := ".l", url := ".u" }
        "http://example.com" = Except.error msg) :=
  ⟨invalid_selector_fatality.1 []
      { event_selector := "[[", name_selector := ".n",
        start_date_selector := ".s", end_date_selector := ".e",
        location_selector := ".l", url := ".u" }
      "http://example.com" (by decide) rfl,
   invalid_selector_fatality.2.1 [HtmlNode.element "div" [("class", "event")] []]
      { event_selector := ".event", name_selector := "[[",
        start_date_selector := ".s", end_date_selector := ".e",
        location_selector := ".l", url := ".u" }
      "http://example.com" event_class_sel
      { ancestors := [], tag := "div", attrs := [("class", "event")],
        children := [] }
      [] (by decide) event_class_parse (by rfl) (Or.inl rfl)⟩

/-- Claim C7: `resolve_url` parses the base as an absolute URL, failing
fatally when it is not one, and joins the relative reference by standard
URL-resolution semantics; in particular the two reference resolutions of
the specification hold. -/
theorem resolve_url_contract :
    (∀ base relative, url_parse base = none →
       resolve_url base relative = Except.error "Failed to parse base URL")
  ∧ resolve_url "http://example.com" "/event" =
      Except.ok "http://example.com/event"
  ∧ resolve_url "http://example.com/a/" "event" =
      Except.ok "http://example.com/a/event" := by
  refine ⟨fun base relative h => ?_, by rfl, by rfl⟩
  unfold resolve_url
  rw [h]

/-- Evaluation of the C7 theorem at a base string that is not an absolute
URL. -/
theorem resolve_url_contract_witness :
    url_parse "not a url" = none ∧
    resolve_url "not a url" "/event" =
      Except.error "Failed to parse base URL" :=
  ⟨rfl, resolve_url_contract.1 "not a url" "/event" rfl⟩
